import Mathlib

/-!
Verification of the Litra device-control core (`src/lib.rs`) and the
CLI brightness/temperature arithmetic (`src/main.rs`) of the
litra-control repository, as a shallow embedding in Lean.

Modelling conventions:

* Rust `u16` values are `ℕ` with an explicit `< 65536` bound where it
  matters; wrapping 16-bit arithmetic is written with an explicit
  `% 65536`.  Rust `i16` casts from `u16` are modelled by `i16_of_u16`.
* A 20-byte HID feature report is a `List ℕ` of length 20.
* The transport is modelled as a recorder of written reports: a device
  operation returns `Except DeviceError (List (List ℕ))`, where
  `Except.ok ws` means the operation succeeded and wrote exactly the
  reports in `ws` (in order), and `Except.error e` means the operation
  failed before performing any write.  The claims under study concern
  validation-before-I/O behaviour, for which this is faithful to the
  source: every `return Err(...)` in the embedded functions occurs
  textually before the corresponding `hid_device.write` call.
* The blocking HID read is modelled by its outcome: `Except Unit (List ℕ)`,
  where `Except.ok bytes` is a successful read that filled the first
  `bytes.length` bytes of the zeroed 20-byte response buffer (the source
  then slices `response_buffer[..n]`), and `Except.error ()` is a failed
  read.  Decoders that index this slice return `Option`, with `none`
  marking an out-of-bounds index, i.e. a Rust panic.
* The `f64` arithmetic of `percentage_within_range` is modelled by exact
  natural arithmetic with round-half-away-from-zero; see the doc comment
  there for the exactness domain.
-/

/-- The model of the device (`enum DeviceType` in `src/lib.rs`). -/
inductive DeviceType
  | LitraGlow
  | LitraBeam
  | LitraBeamLX
  deriving DecidableEq

/-- A device-related error (`enum DeviceError` in `src/lib.rs`).  The
`HidError` variant wraps an underlying `hidapi::HidError` value in the
source; the wrapped payload is irrelevant to the claims and elided. -/
inductive DeviceError
  | Unsupported
  | InvalidBrightness (value : ℕ)
  | InvalidTemperature (value : ℕ)
  | HidError
  deriving DecidableEq

/-- `const VENDOR_ID: u16 = 0x046d` in `src/lib.rs`. -/
def VENDOR_ID : ℕ := 0x046d

/-- `const USAGE_PAGE: u16 = 0xff43` in `src/lib.rs`. -/
def USAGE_PAGE : ℕ := 0xff43

/-- `device_type_from_product_id` in `src/lib.rs`: the product-id → model
match, with the wildcard arm returning `None`. -/
def device_type_from_product_id (product_id : ℕ) : Option DeviceType :=
  if product_id = 0xc900 then some DeviceType.LitraGlow
  else if product_id = 0xc901 then some DeviceType.LitraBeam
  else if product_id = 0xb901 then some DeviceType.LitraBeam
  else if product_id = 0xc903 then some DeviceType.LitraBeamLX
  else none

/-- The classification logic of `impl TryFrom<&DeviceInfo> for Device` in
`src/lib.rs`: reject unless vendor id and usage page match, then map the
product id (`Err(DeviceError::Unsupported)` in the source corresponds to
`none` here, a successful classification to `some`). -/
def classify (vendor_id usage_page product_id : ℕ) : Option DeviceType :=
  if vendor_id ≠ VENDOR_ID ∨ usage_page ≠ USAGE_PAGE then none
  else device_type_from_product_id product_id

/-- `DeviceHandle::minimum_brightness_in_lumen` in `src/lib.rs`. -/
def minimum_brightness_in_lumen : DeviceType → ℕ
  | DeviceType.LitraGlow => 20
  | DeviceType.LitraBeam | DeviceType.LitraBeamLX => 30

/-- `DeviceHandle::maximum_brightness_in_lumen` in `src/lib.rs`. -/
def maximum_brightness_in_lumen : DeviceType → ℕ
  | DeviceType.LitraGlow => 250
  | DeviceType.LitraBeam | DeviceType.LitraBeamLX => 400

/-- `const MINIMUM_TEMPERATURE_IN_KELVIN: u16 = 2700` in `src/lib.rs`. -/
def MINIMUM_TEMPERATURE_IN_KELVIN : ℕ := 2700

/-- `const MAXIMUM_TEMPERATURE_IN_KELVIN: u16 = 6500` in `src/lib.rs`. -/
def MAXIMUM_TEMPERATURE_IN_KELVIN : ℕ := 6500

/-- `DeviceHandle::minimum_temperature_in_kelvin` in `src/lib.rs`: returns
the device-independent constant. -/
def minimum_temperature_in_kelvin : ℕ := MINIMUM_TEMPERATURE_IN_KELVIN

/-- `DeviceHandle::maximum_temperature_in_kelvin` in `src/lib.rs`: returns
the device-independent constant. -/
def maximum_temperature_in_kelvin : ℕ := MAXIMUM_TEMPERATURE_IN_KELVIN

/-- `generate_is_on_bytes` in `src/lib.rs`. -/
def generate_is_on_bytes : DeviceType → List ℕ
  | DeviceType.LitraGlow | DeviceType.LitraBeam =>
      [0x11, 0xff, 0x04, 0x01, 0x00, 0x00, 0x00, 0x00, 0x00, 0x00,
       0x00, 0x00, 0x00, 0x00, 0x00, 0x00, 0x00, 0x00, 0x00, 0x00]
  | DeviceType.LitraBeamLX =>
      [0x11, 0xff, 0x06, 0x01, 0x00, 0x00, 0x00, 0x00, 0x00, 0x00,
       0x00, 0x00, 0x00, 0x00, 0x00, 0x00, 0x00, 0x00, 0x00, 0x00]

/-- `generate_get_brightness_in_lumen_bytes` in `src/lib.rs`. -/
def generate_get_brightness_in_lumen_bytes : DeviceType → List ℕ
  | DeviceType.LitraGlow | DeviceType.LitraBeam =>
      [0x11, 0xff, 0x04, 0x31, 0x00, 0x00, 0x00, 0x00, 0x00, 0x00,
       0x00, 0x00, 0x00, 0x00, 0x00, 0x00, 0x00, 0x00, 0x00, 0x00]
  | DeviceType.LitraBeamLX =>
      [0x11, 0xff, 0x06, 0x31, 0x00, 0x00, 0x00, 0x00, 0x00, 0x00,
       0x00, 0x00, 0x00, 0x00, 0x00, 0x00, 0x00, 0x00, 0x00, 0x00]

/-- `generate_get_temperature_in_kelvin_bytes` in `src/lib.rs`. -/
def generate_get_temperature_in_kelvin_bytes : DeviceType → List ℕ
  | DeviceType.LitraGlow | DeviceType.LitraBeam =>
      [0x11, 0xff, 0x04, 0x81, 0x00, 0x00, 0x00, 0x00, 0x00, 0x00,
       0x00, 0x00, 0x00, 0x00, 0x00, 0x00, 0x00, 0x00, 0x00, 0x00]
  | DeviceType.LitraBeamLX =>
      [0x11, 0xff, 0x06, 0x81, 0x00, 0x00, 0x00, 0x00, 0x00, 0x00,
       0x00, 0x00, 0x00, 0x00, 0x00, 0x00, 0x00, 0x00, 0x00, 0x00]

/-- `generate_set_on_bytes` in `src/lib.rs`: `on_byte` is `0x01` for on,
`0x00` for off. -/
def generate_set_on_bytes (device_type : DeviceType) (turn_on : Bool) : List ℕ :=
  let on_byte : ℕ := if turn_on then 0x01 else 0x00
  match device_type with
  | DeviceType.LitraGlow | DeviceType.LitraBeam =>
      [0x11, 0xff, 0x04, 0x1c, on_byte, 0x00, 0x00, 0x00, 0x00, 0x00,
       0x00, 0x00, 0x00, 0x00, 0x00, 0x00, 0x00, 0x00, 0x00, 0x00]
  | DeviceType.LitraBeamLX =>
      [0x11, 0xff, 0x06, 0x1c, on_byte, 0x00, 0x00, 0x00, 0x00, 0x00,
       0x00, 0x00, 0x00, 0x00, 0x00, 0x00, 0x00, 0x00, 0x00, 0x00]

/-- `generate_set_brightness_in_lumen_bytes` in `src/lib.rs`:
`u16::to_be_bytes` yields the high byte `v / 256 % 256` and the low byte
`v % 256` (for `v < 65536` the high byte is just `v / 256`). -/
def generate_set_brightness_in_lumen_bytes (device_type : DeviceType)
    (brightness_in_lumen : ℕ) : List ℕ :=
  let b0 : ℕ := brightness_in_lumen / 256 % 256
  let b1 : ℕ := brightness_in_lumen % 256
  match device_type with
  | DeviceType.LitraGlow | DeviceType.LitraBeam =>
      [0x11, 0xff, 0x04, 0x4c, b0, b1, 0x00, 0x00, 0x00, 0x00,
       0x00, 0x00, 0x00, 0x00, 0x00, 0x00, 0x00, 0x00, 0x00, 0x00]
  | DeviceType.LitraBeamLX =>
      [0x11, 0xff, 0x06, 0x4c, b0, b1, 0x00, 0x00, 0x00, 0x00,
       0x00, 0x00, 0x00, 0x00, 0x00, 0x00, 0x00, 0x00, 0x00, 0x00]

/-- `generate_set_temperature_in_kelvin_bytes` in `src/lib.rs`. -/
def generate_set_temperature_in_kelvin_bytes (device_type : DeviceType)
    (temperature_in_kelvin : ℕ) : List ℕ :=
  let b0 : ℕ := temperature_in_kelvin / 256 % 256
  let b1 : ℕ := temperature_in_kelvin % 256
  match device_type with
  | DeviceType.LitraGlow | DeviceType.LitraBeam =>
      [0x11, 0xff, 0x04, 0x9c, b0, b1, 0x00, 0x00, 0x00, 0x00,
       0x00, 0x00, 0x00, 0x00, 0x00, 0x00, 0x00, 0x00, 0x00, 0x00]
  | DeviceType.LitraBeamLX =>
      [0x11, 0xff, 0x06, 0x9c, b0, b1, 0x00, 0x00, 0x00, 0x00,
       0x00, 0x00, 0x00, 0x00, 0x00, 0x00, 0x00, 0x00, 0x00, 0x00]

/-- `DeviceHandle::set_brightness_in_lumen` in `src/lib.rs`: validate
against the device's own bounds first, returning
`Err(DeviceError::InvalidBrightness(value))` out of range; only then
encode and write one report. -/
def set_brightness_in_lumen (device_type : DeviceType)
    (brightness_in_lumen : ℕ) : Except DeviceError (List (List ℕ)) :=
  if brightness_in_lumen < minimum_brightness_in_lumen device_type
      ∨ brightness_in_lumen > maximum_brightness_in_lumen device_type then
    Except.error (DeviceError.InvalidBrightness brightness_in_lumen)
  else
    Except.ok [generate_set_brightness_in_lumen_bytes device_type brightness_in_lumen]

/-- `DeviceHandle::set_temperature_in_kelvin` in `src/lib.rs`: validate
the bounds and the multiple-of-100 step first, returning
`Err(DeviceError::InvalidTemperature(value))` on failure; only then
encode and write one report. -/
def set_temperature_in_kelvin (device_type : DeviceType)
    (temperature_in_kelvin : ℕ) : Except DeviceError (List (List ℕ)) :=
  if temperature_in_kelvin < minimum_temperature_in_kelvin
      ∨ temperature_in_kelvin > maximum_temperature_in_kelvin
      ∨ temperature_in_kelvin % 100 ≠ 0 then
    Except.error (DeviceError.InvalidTemperature temperature_in_kelvin)
  else
    Except.ok [generate_set_temperature_in_kelvin_bytes device_type temperature_in_kelvin]

/-- The decoding step shared by `DeviceHandle::brightness_in_lumen` and
`DeviceHandle::temperature_in_kelvin` in `src/lib.rs`:
`u16::from(response[4]) * 256 + u16::from(response[5])`, applied to a
response of sufficient length. -/
def decode_u16_response (response : List ℕ) : ℕ :=
  response.getD 4 0 * 256 + response.getD 5 0

/-- The read-and-decode step of `DeviceHandle::is_on` in `src/lib.rs`.
A failed `read` propagates as a transport error; a successful read of
`bytes.length` bytes is sliced as `response_buffer[..n]` and indexed at 4
(`response_buffer[..response][4] == 1`); `none` marks the out-of-bounds
index (a Rust panic) when fewer than 5 bytes were read. -/
def is_on_from_read (read_result : Except Unit (List ℕ)) :
    Option (Except DeviceError Bool) :=
  match read_result with
  | Except.error _ => some (Except.error DeviceError.HidError)
  | Except.ok bytes =>
    match bytes[4]? with
    | some b => some (Except.ok (b == 1))
    | none => none

/-- The read-and-decode step of `DeviceHandle::brightness_in_lumen` (and,
identically, `DeviceHandle::temperature_in_kelvin`) in `src/lib.rs`:
`u16::from(response_buffer[..response][4]) * 256 +
u16::from(response_buffer[..response][5])`; `none` marks the
out-of-bounds index (a Rust panic) when fewer than 6 bytes were read. -/
def brightness_in_lumen_from_read (read_result : Except Unit (List ℕ)) :
    Option (Except DeviceError ℕ) :=
  match read_result with
  | Except.error _ => some (Except.error DeviceError.HidError)
  | Except.ok bytes =>
    match bytes[4]?, bytes[5]? with
    | some b4, some b5 => some (Except.ok (b4 * 256 + b5))
    | _, _ => none

/-- `percentage_within_range` in `src/main.rs`:
`((percentage as f64 / 100.0) * (end_range - start_range) + start_range).round() as u32`,
modelled in exact natural arithmetic.  Rust's `f64::round` rounds half
away from zero, which for the nonnegative values arising here is
`⌊x + 1/2⌋`; with `x = start + percentage * (end - start) / 100` this is
`(200 * start + 2 * percentage * (end - start) + 100) / 200` in natural
floor division.  The exact model agrees bit-for-bit with the source's
`f64` evaluation for every percentage `0 ≤ percentage ≤ 100` over the
ranges reachable in this program (`(20, 250)`, `(30, 400)`); theorems
about the percentage paths therefore carry a `percentage ≤ 100`
hypothesis, matching the 0–100 percentage domain. -/
def percentage_within_range (percentage start_range end_range : ℕ) : ℕ :=
  (200 * start_range + 2 * percentage * (end_range - start_range) + 100) / 200

/-- Rust's `as i16` cast from a `u16` value: values below `2^15` are
unchanged, larger ones wrap down by `2^16`. -/
def i16_of_u16 (n : ℕ) : ℤ :=
  if n < 32768 then (n : ℤ) else (n : ℤ) - 65536

/-- `enum CliError` in `src/main.rs` (payloads irrelevant to the claims
are elided; `InvalidBrightness` carries the `i16` new-brightness value). -/
inductive CliError
  | DeviceError (error : DeviceError)
  | SerializationFailed
  | BrightnessPercentageCalculationFailed
  | InvalidBrightness (brightness : ℤ)
  | DeviceNotFound
  | MCPError
  deriving DecidableEq

/-- The `From<DeviceError> for CliError` conversion applied by the `?`
operator in the command handlers of `src/main.rs`. -/
def cli_of_device : Except DeviceError (List (List ℕ)) →
    Except CliError (List (List ℕ))
  | Except.error e => Except.error (CliError.DeviceError e)
  | Except.ok ws => Except.ok ws

/-- The absolute-value arm of `handle_brightness_up_command` in
`src/main.rs`, from the point where the current brightness has been read:
`let new_brightness = current_brightness + brightness_to_add;` is
unchecked `u16` addition, which wraps modulo `2^16` (release-profile
semantics), and the result is passed to `set_brightness_in_lumen`. -/
def handle_brightness_up_value (device_type : DeviceType)
    (current_brightness value : ℕ) : Except CliError (List (List ℕ)) :=
  let new_brightness := (current_brightness + value) % 65536
  cli_of_device (set_brightness_in_lumen device_type new_brightness)

/-- The absolute-value arm of `handle_brightness_down_command` in
`src/main.rs`, from the point where the current brightness has been read:
`let new_brightness = current_brightness - brightness_to_subtract;` is
unchecked `u16` subtraction, which wraps modulo `2^16` (release-profile
semantics), and the result is passed to `set_brightness_in_lumen`. -/
def handle_brightness_down_value (device_type : DeviceType)
    (current_brightness value : ℕ) : Except CliError (List (List ℕ)) :=
  let new_brightness := (current_brightness + 65536 - value) % 65536
  cli_of_device (set_brightness_in_lumen device_type new_brightness)

/-- The percentage arm of `handle_brightness_up_command` in `src/main.rs`,
from the point where the current brightness has been read: the delta is
`percentage_within_range(percentage, min, max) as u16 - min` (the
subtraction cannot underflow since the interpolation result is at least
`min`), and `current_brightness + delta` is unchecked `u16` addition. -/
def handle_brightness_up_percentage (device_type : DeviceType)
    (current_brightness percentage : ℕ) : Except CliError (List (List ℕ)) :=
  let brightness_to_add :=
    percentage_within_range percentage
        (minimum_brightness_in_lumen device_type)
        (maximum_brightness_in_lumen device_type)
      - minimum_brightness_in_lumen device_type
  let new_brightness := (current_brightness + brightness_to_add) % 65536
  cli_of_device (set_brightness_in_lumen device_type new_brightness)

/-- The percentage arm of `handle_brightness_down_command` in
`src/main.rs`, from the point where the current brightness has been read:
the delta is `percentage_within_range(percentage, min, max) as u16 - min`;
the new brightness is computed in `i16` arithmetic
(`current_brightness as i16 - brightness_to_subtract as i16`), and if it
is negative the handler fails with `CliError::InvalidBrightness` before
calling `set_brightness_in_lumen`. -/
def handle_brightness_down_percentage (device_type : DeviceType)
    (current_brightness percentage : ℕ) : Except CliError (List (List ℕ)) :=
  let brightness_to_subtract :=
    percentage_within_range percentage
        (minimum_brightness_in_lumen device_type)
        (maximum_brightness_in_lumen device_type)
      - minimum_brightness_in_lumen device_type
  let new_brightness : ℤ :=
    i16_of_u16 current_brightness - i16_of_u16 brightness_to_subtract
  if new_brightness < 0 then
    Except.error (CliError.InvalidBrightness new_brightness)
  else
    cli_of_device (set_brightness_in_lumen device_type new_brightness.toNat)

/-- The device-family byte at index 2 of every report: `0x04` for
Glow/Beam, `0x06` for Beam LX (baked into each literal array of the
generator functions in `src/lib.rs`). -/
def family_byte : DeviceType → ℕ
  | DeviceType.LitraGlow | DeviceType.LitraBeam => 0x04
  | DeviceType.LitraBeamLX => 0x06

/-- The common shape of an outbound report `r`: 20 bytes, magic header
`0x11 0xff`, family byte, opcode, payload bytes `b0 b1` at indices 4–5,
and zeros at indices 6–19. -/
def report_shape (r : List ℕ) (device_type : DeviceType)
    (opcode b0 b1 : ℕ) : Prop :=
  r.length = 20 ∧ r.getD 0 0 = 0x11 ∧ r.getD 1 0 = 0xff ∧
  r.getD 2 0 = family_byte device_type ∧ r.getD 3 0 = opcode ∧
  r.getD 4 0 = b0 ∧ r.getD 5 0 = b1 ∧ r.drop 6 = List.replicate 14 0

/-- C1: for every `DeviceType` and every `u16` value `v`,
`set_brightness_in_lumen v` fails with `InvalidBrightness v` and performs
zero transport writes whenever `v` is below the device minimum or above
the device maximum, and performs exactly one write of the encoded
set-brightness report (returning success) whenever `v` is in range. -/
theorem set_brightness_in_lumen_validates_first (device_type : DeviceType)
    (v : ℕ) (hv : v < 65536) :
    (v < minimum_brightness_in_lumen device_type ∨
        v > maximum_brightness_in_lumen device_type →
      set_brightness_in_lumen device_type v =
        Except.error (DeviceError.InvalidBrightness v)) ∧
    (minimum_brightness_in_lumen device_type ≤ v →
      v ≤ maximum_brightness_in_lumen device_type →
      set_brightness_in_lumen device_type v =
        Except.ok [generate_set_brightness_in_lumen_bytes device_type v]) := by
  constructor <;> intros <;>
    simp only [set_brightness_in_lumen] <;> split_ifs <;>
    first
    | rfl
    | (exfalso; omega)

/-- Witness for C1 at concrete inputs: on a Litra Glow, 19 lm is rejected
with `InvalidBrightness 19` and 100 lm results in exactly one write of
the encoded report. -/
theorem set_brightness_in_lumen_validates_first_witness :
    set_brightness_in_lumen DeviceType.LitraGlow 19 =
      Except.error (DeviceError.InvalidBrightness 19) ∧
    set_brightness_in_lumen DeviceType.LitraGlow 100 =
      Except.ok [generate_set_brightness_in_lumen_bytes DeviceType.LitraGlow 100] :=
  ⟨(set_brightness_in_lumen_validates_first DeviceType.LitraGlow 19
      (by decide)).1 (Or.inl (by decide)),
   (set_brightness_in_lumen_validates_first DeviceType.LitraGlow 100
      (by decide)).2 (by decide) (by decide)⟩

/-- C2: for every `u16` value `v`, `set_temperature_in_kelvin v` fails
with `InvalidTemperature v` and performs no transport I/O whenever
`v < 2700`, `v > 6500` or `v % 100 ≠ 0`, all checked before any write;
and whenever `v` satisfies all three conditions it performs exactly one
write of the encoded set-temperature report and returns success. -/
theorem set_temperature_in_kelvin_validates_first (device_type : DeviceType)
    (v : ℕ) (hv : v < 65536) :
    (v < 2700 ∨ v > 6500 ∨ v % 100 ≠ 0 →
      set_temperature_in_kelvin device_type v =
        Except.error (DeviceError.InvalidTemperature v)) ∧
    (2700 ≤ v → v ≤ 6500 → v % 100 = 0 →
      set_temperature_in_kelvin device_type v =
        Except.ok [generate_set_temperature_in_kelvin_bytes device_type v]) := by
  constructor <;> intros <;>
    simp only [set_temperature_in_kelvin, minimum_temperature_in_kelvin,
      maximum_temperature_in_kelvin, MINIMUM_TEMPERATURE_IN_KELVIN,
      MAXIMUM_TEMPERATURE_IN_KELVIN] <;> split_ifs <;>
    first
    | rfl
    | (exfalso; omega)

/-- Witness for C2 at concrete inputs: 4550 K is rejected with
`InvalidTemperature 4550` (not a multiple of 100) and 4500 K results in
exactly one write of the encoded report. -/
theorem set_temperature_in_kelvin_validates_first_witness :
    set_temperature_in_kelvin DeviceType.LitraBeam 4550 =
      Except.error (DeviceError.InvalidTemperature 4550) ∧
    set_temperature_in_kelvin DeviceType.LitraBeam 4500 =
      Except.ok [generate_set_temperature_in_kelvin_bytes DeviceType.LitraBeam 4500] :=
  ⟨(set_temperature_in_kelvin_validates_first DeviceType.LitraBeam 4550
      (by decide)).1 (Or.inr (Or.inr (by decide))),
   (set_temperature_in_kelvin_validates_first DeviceType.LitraBeam 4500
      (by decide)).2 (by decide) (by decide) (by decide)⟩

/-- C5: `classify` returns `none` whenever the vendor id or usage page is
wrong; under vendor `0x046D` and usage page `0xFF43` it maps the four
known product ids to their models and everything else to `none`; and the
three concrete scenarios hold. -/
theorem classify_catalog :
    (∀ vendor_id usage_page product_id : ℕ,
        vendor_id ≠ VENDOR_ID ∨ usage_page ≠ USAGE_PAGE →
        classify vendor_id usage_page product_id = none) ∧
    classify 0x046d 0xff43 0xc900 = some DeviceType.LitraGlow ∧
    classify 0x046d 0xff43 0xc901 = some DeviceType.LitraBeam ∧
    classify 0x046d 0xff43 0xb901 = some DeviceType.LitraBeam ∧
    classify 0x046d 0xff43 0xc903 = some DeviceType.LitraBeamLX ∧
    (∀ product_id : ℕ, product_id ≠ 0xc900 → product_id ≠ 0xc901 →
        product_id ≠ 0xb901 → product_id ≠ 0xc903 →
        classify 0x046d 0xff43 product_id = none) ∧
    classify 0x046d 0xff43 0x1234 = none ∧
    classify 0x1234 0xff43 0xc900 = none := by
  refine ⟨?_, by decide, by decide, by decide, by decide, ?_, by decide, by decide⟩
  · intro vendor_id usage_page product_id h
    simp only [classify]
    rw [if_pos h]
  · intro product_id h1 h2 h3 h4
    simp only [classify, device_type_from_product_id]
    rw [if_neg (by simp [VENDOR_ID, USAGE_PAGE]),
      if_neg h1, if_neg h2, if_neg h3, if_neg h4]

/-- Witness for C5's universal components at concrete inputs: a wrong
vendor id and an unknown product id both classify to `none`. -/
theorem classify_catalog_witness :
    classify 0x1234 0xff43 0xc903 = none ∧
    classify 0x046d 0xff43 0xc777 = none :=
  ⟨classify_catalog.1 0x1234 0xff43 0xc903 (Or.inl (by decide)),
   (classify_catalog.2.2.2.2.2).1 0xc777 (by decide) (by decide) (by decide)
     (by decide)⟩

/-- C6: the big-endian payload encoding of the set-brightness report and
the response decode formula `response[4] * 256 + response[5]` are
mutually inverse: for every `DeviceType` and every `u16` value `v`,
decoding the set-brightness report encoded for `v` yields exactly `v`,
both through the bare decode formula and through the read-and-decode
step of `brightness_in_lumen` fed the encoded report. -/
theorem set_brightness_decode_roundtrip (device_type : DeviceType) (v : ℕ)
    (hv : v < 65536) :
    decode_u16_response (generate_set_brightness_in_lumen_bytes device_type v) = v ∧
    brightness_in_lumen_from_read
        (Except.ok (generate_set_brightness_in_lumen_bytes device_type v)) =
      some (Except.ok v) := by
  cases device_type <;>
    simp [decode_u16_response, generate_set_brightness_in_lumen_bytes,
      brightness_in_lumen_from_read, List.getD] <;> omega

/-- Witness for C6 at a concrete input: the report encoded for 300 lm on
a Litra Beam decodes back to 300. -/
theorem set_brightness_decode_roundtrip_witness :
    decode_u16_response
      (generate_set_brightness_in_lumen_bytes DeviceType.LitraBeam 300) = 300 :=
  (set_brightness_decode_roundtrip DeviceType.LitraBeam 300 (by decide)).1

/-- C9: the brightness bounds are pure functions of `DeviceType` alone
(Glow: 20 and 250; Beam and Beam LX: 30 and 400) with minimum strictly
below maximum for every model, and the temperature bounds are the
device-independent constants 2700 and 6500. -/
theorem bounds_are_pure_constants :
    (∀ device_type : DeviceType,
        minimum_brightness_in_lumen device_type <
          maximum_brightness_in_lumen device_type) ∧
    minimum_brightness_in_lumen DeviceType.LitraGlow = 20 ∧
    maximum_brightness_in_lumen DeviceType.LitraGlow = 250 ∧
    minimum_brightness_in_lumen DeviceType.LitraBeam = 30 ∧
    maximum_brightness_in_lumen DeviceType.LitraBeam = 400 ∧
    minimum_brightness_in_lumen DeviceType.LitraBeamLX = 30 ∧
    maximum_brightness_in_lumen DeviceType.LitraBeamLX = 400 ∧
    minimum_temperature_in_kelvin = 2700 ∧
    maximum_temperature_in_kelvin = 6500 :=
  ⟨fun device_type => by cases device_type <;> decide,
   rfl, rfl, rfl, rfl, rfl, rfl, rfl, rfl⟩

/-- C3: every outbound report of the codec — query power `0x01`, query
brightness `0x31`, query temperature `0x81`, set power `0x1c`, set
brightness `0x4c`, set temperature `0x9c` — for every `DeviceType`,
every `u16` payload and both power states, is exactly 20 bytes with
header `0x11 0xff`, family byte `0x04` (Glow/Beam) or `0x06` (Beam LX),
the opcode at index 3, the payload at indices 4–5 (set power: 1 for on,
0 for off; set brightness/temperature: big-endian `u16`), and zeros
everywhere after the payload. -/
theorem codec_report_shapes (device_type : DeviceType) (v : ℕ)
    (turn_on : Bool) (hv : v < 65536) :
    report_shape (generate_is_on_bytes device_type) device_type 0x01 0 0 ∧
    report_shape (generate_get_brightness_in_lumen_bytes device_type)
      device_type 0x31 0 0 ∧
    report_shape (generate_get_temperature_in_kelvin_bytes device_type)
      device_type 0x81 0 0 ∧
    report_shape (generate_set_on_bytes device_type turn_on) device_type 0x1c
      (if turn_on then 1 else 0) 0 ∧
    report_shape (generate_set_brightness_in_lumen_bytes device_type v)
      device_type 0x4c (v / 256) (v % 256) ∧
    report_shape (generate_set_temperature_in_kelvin_bytes device_type v)
      device_type 0x9c (v / 256) (v % 256) := by
  cases device_type <;> cases turn_on <;>
    refine ⟨?_, ?_, ?_, ?_, ?_, ?_⟩ <;>
    simp [report_shape, family_byte, generate_is_on_bytes,
      generate_get_brightness_in_lumen_bytes,
      generate_get_temperature_in_kelvin_bytes, generate_set_on_bytes,
      generate_set_brightness_in_lumen_bytes,
      generate_set_temperature_in_kelvin_bytes, List.getD] <;>
    omega

/-- Witness for C3 at concrete inputs: the set-brightness report for
300 lm on a Litra Beam LX has the specified shape, as does the power-on
report. -/
theorem codec_report_shapes_witness :
    report_shape (generate_set_brightness_in_lumen_bytes DeviceType.LitraBeamLX 300)
      DeviceType.LitraBeamLX 0x4c (300 / 256) (300 % 256) ∧
    report_shape (generate_set_on_bytes DeviceType.LitraGlow true)
      DeviceType.LitraGlow 0x1c (if true then 1 else 0) 0 :=
  ⟨(codec_report_shapes DeviceType.LitraBeamLX 300 true (by decide)).2.2.2.2.1,
   (codec_report_shapes DeviceType.LitraGlow 300 true (by decide)).2.2.2.1⟩

/-- C7 (code evaluated at the failing input): a successful transport read
that returns only 4 bytes — as can happen on device hot-unplug — makes
the read-and-decode step of `is_on` index `response_buffer[..4][4]`,
which is out of bounds: the model returns `none`, i.e. the source
panics instead of returning a decoded value or a `TransportError`. -/
theorem is_on_short_read_panics :
    is_on_from_read (Except.ok [0x00, 0x00, 0x00, 0x00]) = none ∧
    brightness_in_lumen_from_read (Except.ok [0x00, 0x00, 0x00, 0x00, 0x01]) =
      none := by
  constructor <;> rfl

/-- C8: on a Litra Glow reading 100 lm, brightness-down by 10 percent
computes the delta `percentage_within_range 10 20 250 - 20 = 43 - 20 = 23`
and writes the encoded report for 77 lm; on the same device at 30 lm,
brightness-down by 50 percent computes the delta `135 - 20 = 115`, finds
`30 - 115 = -85` negative, and fails with `InvalidBrightness` having
issued zero writes. -/
theorem brightness_down_percentage_scenarios :
    percentage_within_range 10 20 250 = 43 ∧
    percentage_within_range 50 20 250 = 135 ∧
    handle_brightness_down_percentage DeviceType.LitraGlow 100 10 =
      Except.ok [generate_set_brightness_in_lumen_bytes DeviceType.LitraGlow 77] ∧
    handle_brightness_down_percentage DeviceType.LitraGlow 30 50 =
      Except.error (CliError.InvalidBrightness (-85)) := by
  refine ⟨by decide, by decide, ?_, ?_⟩ <;> rfl

/-- C4 counterexample: brightness-down with an absolute lumen value has
no underflow guard.  On a Litra Glow at 30 lm, requesting a decrease of
65535 lm — a subtraction that goes negative — does not fail with
`InvalidBrightness`: the unchecked `u16` subtraction wraps to 31, which
is in range, and the handler issues one write of the report for 31 lm. -/
theorem brightness_down_value_wrap_counterexample :
    (30 : ℕ) < 65535 ∧
    handle_brightness_down_value DeviceType.LitraGlow 30 65535 =
      Except.ok [generate_set_brightness_in_lumen_bytes DeviceType.LitraGlow 31] :=
  ⟨by decide, rfl⟩

/-- C4 as amended: only the percentage arm of brightness-down guards
against underflow.  For every `DeviceType`, current brightness and
percentage (0–100), if the computed subtraction of the percentage delta
from the current brightness would go negative, the handler fails with
`CliError::InvalidBrightness` carrying the negative `i16` result, before
attempting any write. -/
theorem brightness_down_percentage_underflow_guard (device_type : DeviceType)
    (current_brightness percentage : ℕ)
    (hc : current_brightness < 65536) (hp : percentage ≤ 100)
    (hlt : current_brightness <
      percentage_within_range percentage
          (minimum_brightness_in_lumen device_type)
          (maximum_brightness_in_lumen device_type)
        - minimum_brightness_in_lumen device_type) :
    handle_brightness_down_percentage device_type current_brightness percentage =
      Except.error (CliError.InvalidBrightness
        ((current_brightness : ℤ) -
          ((percentage_within_range percentage
              (minimum_brightness_in_lumen device_type)
              (maximum_brightness_in_lumen device_type)
            - minimum_brightness_in_lumen device_type : ℕ) : ℤ))) := by
  cases device_type <;>
    (simp only [handle_brightness_down_percentage, percentage_within_range,
       minimum_brightness_in_lumen, maximum_brightness_in_lumen,
       i16_of_u16] at hlt ⊢
     split_ifs <;>
       first
       | (exfalso; omega)
       | (simp only [Except.error.injEq, CliError.InvalidBrightness.injEq] <;>
          omega))

/-- Witness for the amended C4 at concrete inputs: on a Litra Glow at
40 lm, brightness-down by 50 percent (delta 115) fails with
`InvalidBrightness (40 - 115)` and issues no write. -/
theorem brightness_down_percentage_underflow_guard_witness :
    handle_brightness_down_percentage DeviceType.LitraGlow 40 50 =
      Except.error (CliError.InvalidBrightness
        ((40 : ℤ) -
          ((percentage_within_range 50
              (minimum_brightness_in_lumen DeviceType.LitraGlow)
              (maximum_brightness_in_lumen DeviceType.LitraGlow)
            - minimum_brightness_in_lumen DeviceType.LitraGlow : ℕ) : ℤ))) :=
  brightness_down_percentage_underflow_guard DeviceType.LitraGlow 40 50
    (by decide) (by decide) (by decide)

/-- C10: brightness-up with an absolute lumen value computes
`current_brightness + value` in unchecked unsigned 16-bit arithmetic:
whenever the mathematical sum exceeds 65535 it wraps modulo `2^16`
before the range validation of `set_brightness_in_lumen` runs, and the
operation never fails with `InvalidBrightness` on the true out-of-range
sum (the validated value is the strictly smaller wrapped one). -/
theorem brightness_up_value_overflow_wraps (device_type : DeviceType)
    (current_brightness value : ℕ) (hc : current_brightness < 65536)
    (hv : value < 65536) (hsum : 65535 < current_brightness + value) :
    handle_brightness_up_value device_type current_brightness value =
      cli_of_device (set_brightness_in_lumen device_type
        ((current_brightness + value) % 65536)) ∧
    (current_brightness + value) % 65536 < current_brightness + value ∧
    handle_brightness_up_value device_type current_brightness value ≠
      Except.error (CliError.DeviceError
        (DeviceError.InvalidBrightness (current_brightness + value))) := by
  refine ⟨rfl, by omega, ?_⟩
  simp only [handle_brightness_up_value, set_brightness_in_lumen, cli_of_device]
  split_ifs with h
  · simp only [ne_eq, Except.error.injEq, CliError.DeviceError.injEq,
      DeviceError.InvalidBrightness.injEq]
    omega
  · simp

/-- Witness for C10 at concrete inputs: on a Litra Glow at 60000 lm
(as read), brightness-up by 5600 lm wraps 65600 to 64 and does not fail
with `InvalidBrightness 65600`. -/
theorem brightness_up_value_overflow_wraps_witness :
    (60000 + 5600) % 65536 < 60000 + 5600 ∧
    handle_brightness_up_value DeviceType.LitraGlow 60000 5600 ≠
      Except.error (CliError.DeviceError
        (DeviceError.InvalidBrightness (60000 + 5600))) :=
  ⟨(brightness_up_value_overflow_wraps DeviceType.LitraGlow 60000 5600
      (by decide) (by decide) (by decide)).2.1,
   (brightness_up_value_overflow_wraps DeviceType.LitraGlow 60000 5600
      (by decide) (by decide) (by decide)).2.2⟩
